import Mathlib

/-!
Shallow embedding of `pg_fts/aggregates.py` (django-pg-fts): the ranking
expression builder.  `AggregateRegister` renders a ranking function call to
SQL text plus bound parameters; the `Aggregate` hierarchy (`FTSRank`,
`FTSRankCd`, `FTSRankDictionay`, `FTSRankCdDictionary`) parses the caller's
keyword arguments and attaches predicate, rank expression and grouping to a
query object.  Machinery such as string formatting with `%d` and tuple
unpacking is made explicit; Python exceptions become an error type carried
in `Except`.
-/

namespace PgFts

/-- A Python value as it appears in the builder: an integer, a string, or a
tuple of values (as produced by bound-parameter preparation or passed in a
keyword argument). -/
inductive PyVal where
  | int : Int → PyVal
  | str : String → PyVal
  | tup : List PyVal → PyVal

/-- The Python exceptions the builder can raise, by kind:
`assertionError` from the `assert len(extra) == 1` contract check,
`valueError` from tuple unpacking (`a, b = seq` with too few elements),
`fieldError` from `source.get_transform` on an unknown dictionary, and
`typeError` from formatting a non-integer with `'%d' % i`. -/
inductive PyError where
  | assertionError
  | valueError
  | fieldError
  | typeError
  deriving DecidableEq

/-- `'%d' % v`: decimal formatting of a Python value.  An integer formats
to its decimal representation.  A tuple operand of `%` is treated by
Python as the argument tuple, so a one-element tuple holding an integer
also formats (`'%d' % (1,)` yields `'1'`); every other value — a string,
an empty or longer tuple, or a one-element tuple holding a non-integer —
raises `TypeError`. -/
def pyFormatD : PyVal → Except PyError String
  | .int n => .ok (toString n)
  | .tup [.int n] => .ok (toString n)
  | _ => .error .typeError

/-- Whether `'%d' % v` succeeds on the value: an integer, or a one-element
tuple holding an integer. -/
def PyVal.formatsWithD : PyVal → Bool
  | .int _ => true
  | .tup [.int _] => true
  | _ => false

/-- `['%d' % i for i in l]`: format every element left to right, stopping
at the first failure. -/
def formatAll : List PyVal → Except PyError (List String)
  | [] => .ok []
  | v :: vs =>
    match pyFormatD v with
    | .error e => .error e
    | .ok s =>
      match formatAll vs with
      | .error e => .error e
      | .ok ss => .ok (s :: ss)

/-- The normalization block of `AggregateRegister.as_sql`:
`', ' + '|'.join('%d' % i for i in self.normalization)` when the list is
truthy (non-empty), the empty string otherwise. -/
def normalizationParams (normalization : List PyVal) :
    Except PyError String :=
  if normalization.isEmpty then .ok ""
  else
    match formatAll normalization with
    | .ok strs => .ok (", " ++ String.intercalate "|" strs)
    | .error e => .error e

/-- `str.split(LOOKUP_SEP)` on the character list of the key, specialised to
Django's `LOOKUP_SEP = '__'`: left-to-right scan, splitting at each
occurrence of two consecutive underscores.  Never returns an empty list
(the empty string splits to `[""]`, as in Python). -/
def splitChars : List Char → List (List Char)
  | [] => [[]]
  | [c] => [[c]]
  | c1 :: c2 :: rest =>
    if c1 = '_' ∧ c2 = '_' then [] :: splitChars rest
    else
      match splitChars (c2 :: rest) with
      | h :: t => (c1 :: h) :: t
      | [] => [[c1]]

/-- `k.split(LOOKUP_SEP)` as a list of strings. -/
def splitLookupSep (k : String) : List String :=
  (splitChars k.data).map String.mk

/-- `LOOKUP_SEP.join(parts)`. -/
def joinLookupSep (parts : List String) : String :=
  String.intercalate "__" parts

/-- The rendered `AggregateRegister`: the fields of the fake aggregate that
`as_sql` consumes (`col`, `sql_function`, `params` from `extra['params']`,
`dictionary` from `extra['dictionary']`, `normalization` from
`extra['normalization_arr']`). -/
structure AggregateRegister where
  col : List String
  sql_function : String
  params : PyVal
  dictionary : String
  normalization : List PyVal

/-- `AggregateRegister.as_sql(qn, connection)`: substitutes into
`"%(function)s(%(field_name)s, to_tsquery('%(dictionary)s', %(place)s)%(normalization)s)"`
with `field_name` the dot-join of the quoted column parts, `place` the
literal `%s`, and `normalization` empty for an empty flag list and
`", n1|...|nk"` otherwise; returns the text together with the one-element
parameter list `[self.params]`.  Rendering a non-integer flag with `'%d'`
raises `TypeError`. -/
def AggregateRegister.as_sql (a : AggregateRegister) (qn : String → String) :
    Except PyError (String × List PyVal) :=
  match normalizationParams a.normalization with
  | .error e => .error e
  | .ok normalization_params =>
    .ok (a.sql_function ++ "(" ++ String.intercalate "." (a.col.map qn) ++
           ", to_tsquery(\x27" ++ a.dictionary ++ "\x27, %s)" ++
           normalization_params ++ ")",
         [a.params])

/-- The `self.extra` attribute of an `Aggregate` spec: either the keyword
dict left over after `__init__` pops `normalization`, or the dict
`{'params': ..., 'dictionary': ..., 'normalization_arr': ...}` that
`add_to_query` overwrites it with. -/
inductive Extra where
  | kwargs : List (String × PyVal) → Extra
  | rank : PyVal → String → List PyVal → Extra

/-- The state of an `Aggregate` spec object (`FTSRank` and friends) after
construction: variant name and SQL function, the attribute `lookup` path,
right-hand-side search term `rhs`, `dictionary` (empty when deferred to the
column default), match lookup name `srt_lookup`, normalization list, and
the `extra` attribute. -/
structure FTSRankSpec where
  name : String
  sql_function : String
  lookup : String
  rhs : PyVal
  dictionary : String
  srt_lookup : String
  normalization : List PyVal
  extra : Extra

/-- `FTSRank.__init__` (shared by `FTSRankCd`), parameterised by the
variant's `name` and `sql_function` class attributes.  `norm?` is the
`normalization` keyword (absent means the default `[]`); `extra` is the
remaining keyword dict as an ordered association list.  The code pops
`normalization`, asserts exactly one keyword remains, splits its key on
`LOOKUP_SEP`, takes the last segment as `srt_lookup` and rejoins the
leading segments (`lookups[:-1]`) as `lookup`; `dictionary` stays at the
class default `''`.  (`str.split` never returns an empty list, so the
`getLastD` default is unreachable.) -/
def FTSRank_init (nm fn : String) (norm? : Option (List PyVal))
    (extra : List (String × PyVal)) : Except PyError FTSRankSpec :=
  let normalization := norm?.getD []
  match extra with
  | [(k, v)] =>
    let lookups := splitLookupSep k
    .ok { name := nm
          sql_function := fn
          lookup := joinLookupSep lookups.dropLast
          rhs := v
          dictionary := ""
          srt_lookup := lookups.getLastD ""
          normalization := normalization
          extra := .kwargs [(k, v)] }
  | _ => .error .assertionError

/-- `FTSRankDictionay.__init__` (shared by `FTSRankCdDictionary`).  After
the same pop-and-assert, it unpacks the last two path segments as
`self.dictionary, self.srt_lookup = lookups[-2:]` — with fewer than two
segments the unpacking raises `ValueError` — and rejoins the leading
segments (`lookups[:-2]`) as `lookup`. -/
def FTSRankDictionay_init (nm fn : String) (norm? : Option (List PyVal))
    (extra : List (String × PyVal)) : Except PyError FTSRankSpec :=
  let normalization := norm?.getD []
  match extra with
  | [(k, v)] =>
    let lookups := splitLookupSep k
    match lookups.reverse with
    | s :: d :: _ =>
      .ok { name := nm
            sql_function := fn
            lookup := joinLookupSep (lookups.take (lookups.length - 2))
            rhs := v
            dictionary := d
            srt_lookup := s
            normalization := normalization
            extra := .kwargs [(k, v)] }
    | _ => .error .valueError
  | _ => .error .assertionError

/-- `FTSRank(**extra)`: `name = 'FTSRank'`, `sql_function = 'ts_rank'`. -/
def FTSRank.init : Option (List PyVal) → List (String × PyVal) →
    Except PyError FTSRankSpec :=
  FTSRank_init "FTSRank" "ts_rank"

/-- `FTSRankCd(**extra)`: `name = 'FTSRankCd'`, `sql_function = 'ts_rank_cd'`. -/
def FTSRankCd.init : Option (List PyVal) → List (String × PyVal) →
    Except PyError FTSRankSpec :=
  FTSRank_init "FTSRankCd" "ts_rank_cd"

/-- `FTSRankDictionay(**extra)`: the class sets neither `name` nor
`sql_function`, so it inherits `'FTSRank'` and `'ts_rank'` from `FTSRank`. -/
def FTSRankDictionay.init : Option (List PyVal) → List (String × PyVal) →
    Except PyError FTSRankSpec :=
  FTSRankDictionay_init "FTSRank" "ts_rank"

/-- `FTSRankCdDictionary(**extra)`: `name = 'FTSRankCdDictionary'`,
`sql_function = 'ts_rank_cd'`. -/
def FTSRankCdDictionary.init : Option (List PyVal) → List (String × PyVal) →
    Except PyError FTSRankSpec :=
  FTSRankDictionay_init "FTSRankCdDictionary" "ts_rank_cd"

/-- Modelled from the spec: the match-operator lookup returned by
`resolver.getLookup(name)` (the `TSVectorField` lookup classes live in
`pg_fts/fields.py`, which is not among the sources).  Its `lookup_sql`
template is rendered with the quoted resolved column, the resolved
dictionary, and a placeholder for the bound term, producing the predicate
SQL. -/
structure FTSLookup where
  lookup_sql : String → String → String → String

/-- Modelled from the spec: the column/attribute resolver (`source`, a
`TSVectorField` in the repository, declared outside these sources).  It
exposes the registered dictionary transform names, the column's default
`dictionary`, `get_lookup` returning a predicate template, and
`_get_db_prep_lookup` preparing the right-hand-side value for the driver. -/
structure Source where
  transforms : List String
  dictionary : String
  get_lookup_fn : String → FTSLookup
  db_prep : String → PyVal → PyVal

/-- Modelled from the spec: `source.get_transform(name)` validates that a
named dictionary transform is registered on the column and fails with a
configuration error if not ("test for if is a valid transform, if not will
raise error"). -/
def Source.get_transform (s : Source) (nm : String) : Except PyError Unit :=
  if nm ∈ s.transforms then .ok () else .error .fieldError

/-- The mutable query representation, reduced to the fields
`add_to_query` touches: the WHERE fragment list and parameter groups that
`query.add_extra` extends, the alias-keyed `query.aggregates` mapping, and
the `query.group_by` column list. -/
structure Query where
  whereList : List String
  whereParams : List PyVal
  aggregates : List (String × AggregateRegister)
  group_by : List (List String)

/-- `query.aggregates[als] = aggregate`: mapping assignment, overwriting an
existing binding for the alias and otherwise appending. -/
def updateAssoc (l : List (String × AggregateRegister)) (k : String)
    (v : AggregateRegister) : List (String × AggregateRegister) :=
  match l with
  | [] => [(k, v)]
  | (k₀, v₀) :: rest =>
    if k₀ = k then (k, v) :: rest else (k₀, v₀) :: updateAssoc rest k v

/-- Mapping lookup in `query.aggregates`. -/
def findAssoc (l : List (String × AggregateRegister)) (k : String) :
    Option AggregateRegister :=
  match l with
  | [] => none
  | (k₀, v₀) :: rest => if k₀ = k then some v₀ else findAssoc rest k

/-- The dictionary-resolution step at the top of `Aggregate.add_to_query`:
an explicit (non-empty) `self.dictionary` is validated via
`source.get_transform` and kept; an empty one is replaced by
`source.dictionary`. -/
def resolveDict (self : FTSRankSpec) (source : Source) :
    Except PyError String :=
  if self.dictionary ≠ "" then
    match source.get_transform self.dictionary with
    | .ok _ => .ok self.dictionary
    | .error e => .error e
  else
    .ok source.dictionary

/-- `'"%s"' % c` joined with dots: the double-quoted column reference used
in the predicate. -/
def quoteCol (col : List String) : String :=
  String.intercalate "." (col.map (fun c => "\"" ++ c ++ "\""))

/-- `Aggregate.add_to_query(query, alias, col, source)`.  After dictionary
resolution (which assigns `self.dictionary` in the inference branch), it
builds the predicate from `source.get_lookup(self.srt_lookup).lookup_sql`
rendered with the double-quote-joined column, the dictionary, and a `%s`
placeholder (the subsequent `fts_query % ('%s')` re-substitution is the
identity on it), prepares `params` from `rhs`, overwrites `self.extra`,
appends the fragment and its parameter group via `query.add_extra`, stores
an `AggregateRegister` under `als` in `query.aggregates`, and appends `col`
to `query.group_by` only if absent.  The updated spec object is returned
alongside the updated query to model the in-place mutation of both. -/
def add_to_query (self : FTSRankSpec) (query : Query) (als : String)
    (col : List String) (source : Source) :
    Except PyError (FTSRankSpec × Query) :=
  match resolveDict self source with
  | .error e => .error e
  | .ok dict =>
    let params := source.db_prep self.srt_lookup self.rhs
    let self' : FTSRankSpec :=
      { self with dictionary := dict
                  extra := .rank params dict self.normalization }
    let fts_query :=
      (source.get_lookup_fn self.srt_lookup).lookup_sql (quoteCol col)
        dict "%s"
    let aggregate : AggregateRegister :=
      { col := col
        sql_function := self.sql_function
        params := params
        dictionary := dict
        normalization := self.normalization }
    let query' : Query :=
      { whereList := query.whereList ++ [fts_query]
        whereParams := query.whereParams ++ [params]
        aggregates := updateAssoc query.aggregates als aggregate
        group_by := if col ∈ query.group_by then query.group_by
                    else query.group_by ++ [col] }
    .ok (self', query')

/-! Specification-side definitions and concrete fixtures. -/

/-- The normalization suffix as the specification words it: for an ordered
list of non-negative integers `[n1, ..., nk]`, empty when `k = 0`, and
otherwise exactly `", n1|n2|...|nk"` with the flags in their original
order. -/
def specNormSuffix (flags : List Nat) : String :=
  if flags = [] then ""
  else ", " ++ String.intercalate "|" (flags.map (fun n => toString n))

/-- A concrete match-operator lookup in the shape of the repository's
`search` lookup, used for closed test instances. -/
def testLookup : FTSLookup :=
  ⟨fun c d p => c ++ " @@ to_tsquery(\x27" ++ d ++ "\x27, " ++ p ++ ")"⟩

/-- A concrete resolver whose default dictionary is `english` and whose
only registered transform is `english`. -/
def englishSource : Source :=
  ⟨["english"], "english", fun _ => testLookup, fun _ v => .tup [v]⟩

/-- A concrete resolver whose default dictionary is `german` but which
registers only the `english` transform. -/
def germanSource : Source :=
  ⟨["english"], "german", fun _ => testLookup, fun _ v => .tup [v]⟩

/-- A query with no WHERE fragments, parameters, aggregates or grouping. -/
def emptyQuery : Query := ⟨[], [], [], []⟩

/-- A concrete dictionary-default spec, as `FTSRank(body__search='hi')`
builds it. -/
def bodySpec : FTSRankSpec :=
  ⟨"FTSRank", "ts_rank", "body", .str "hi", "", "search", [],
   .kwargs [("body__search", .str "hi")]⟩

/-- The predicate fragment the fixtures produce for the column
`("article", "body")` under the `english` dictionary. -/
def bodyFragment : String :=
  "\"article\".\"body\" @@ to_tsquery(\x27english\x27, %s)"

/-- `bodySpec` after attachment through `englishSource`: the dictionary is
assigned and `extra` overwritten. -/
def bodySpecAttached : FTSRankSpec :=
  ⟨"FTSRank", "ts_rank", "body", .str "hi", "english", "search", [],
   .rank (.tup [.str "hi"]) "english" []⟩

/-- The rank aggregate registered for `bodySpec`. -/
def bodyAggregate : AggregateRegister :=
  ⟨["article", "body"], "ts_rank", .tup [.str "hi"], "english", []⟩

/-- `emptyQuery` after attaching `bodySpec` under alias `rank`. -/
def queryOnce : Query :=
  ⟨[bodyFragment], [.tup [.str "hi"]], [("rank", bodyAggregate)],
   [["article", "body"]]⟩

/-- `queryOnce` after attaching `bodySpecAttached` (the same spec object)
a second time under the same alias: the WHERE fragment and its parameter
group are duplicated, the aggregate is overwritten, and GROUP BY is left
alone. -/
def queryReattached : Query :=
  ⟨[bodyFragment, bodyFragment], [.tup [.str "hi"], .tup [.str "hi"]],
   [("rank", bodyAggregate)], [["article", "body"]]⟩

/-- A second, distinct spec over the same column, as
`FTSRankCd(body__search='yo')` builds it. -/
def cdSpec : FTSRankSpec :=
  ⟨"FTSRankCd", "ts_rank_cd", "body", .str "yo", "", "search", [],
   .kwargs [("body__search", .str "yo")]⟩

/-- `cdSpec` after attachment through `englishSource`. -/
def cdSpecAttached : FTSRankSpec :=
  ⟨"FTSRankCd", "ts_rank_cd", "body", .str "yo", "english", "search", [],
   .rank (.tup [.str "yo"]) "english" []⟩

/-- `queryOnce` after also attaching `cdSpec` under alias `rank_cd`: its
fragment is appended but the GROUP BY column is not repeated. -/
def queryTwice : Query :=
  ⟨[bodyFragment, bodyFragment], [.tup [.str "hi"], .tup [.str "yo"]],
   [("rank", bodyAggregate),
    ("rank_cd", ⟨["article", "body"], "ts_rank_cd", .tup [.str "yo"],
                 "english", []⟩)],
   [["article", "body"]]⟩

/-! Helper lemmas shared by the claim theorems. -/

theorem formatAll_int (flags : List Nat) :
    formatAll (flags.map (fun n => PyVal.int n)) =
      .ok (flags.map (fun n => toString n)) := by
  induction flags with
  | nil => rfl
  | cons n ns ih =>
    show formatAll (PyVal.int n :: ns.map (fun n => PyVal.int n)) = _
    unfold formatAll
    rw [ih]
    rfl

theorem normalizationParams_int (flags : List Nat) :
    normalizationParams (flags.map (fun n => PyVal.int n)) =
      .ok (specNormSuffix flags) := by
  cases flags with
  | nil => rfl
  | cons n ns =>
    unfold normalizationParams
    rw [formatAll_int]
    simp [specNormSuffix]

theorem pyFormatD_cases (v : PyVal) :
    (v.formatsWithD = true ∧ ∃ s, pyFormatD v = .ok s) ∨
    (v.formatsWithD = false ∧ pyFormatD v = .error .typeError) := by
  cases v with
  | int n => exact Or.inl ⟨rfl, _, rfl⟩
  | str s => exact Or.inr ⟨rfl, rfl⟩
  | tup l =>
    match l with
    | [] => exact Or.inr ⟨rfl, rfl⟩
    | [x] =>
      cases x with
      | int n => exact Or.inl ⟨rfl, _, rfl⟩
      | str s => exact Or.inr ⟨rfl, rfl⟩
      | tup t => exact Or.inr ⟨rfl, rfl⟩
    | x :: y :: t =>
      cases x with
      | int n => exact Or.inr ⟨rfl, rfl⟩
      | str s => exact Or.inr ⟨rfl, rfl⟩
      | tup u => exact Or.inr ⟨rfl, rfl⟩

theorem formatAll_error_of_bad_entry {l : List PyVal}
    (h : ∃ x ∈ l, x.formatsWithD = false) :
    formatAll l = .error .typeError := by
  induction l with
  | nil => simp at h
  | cons y ys ih =>
    obtain ⟨x, hmem, hx⟩ := h
    rcases List.mem_cons.mp hmem with heq | htail
    · subst heq
      rcases pyFormatD_cases x with ⟨hgood, -⟩ | ⟨-, herr⟩
      · rw [hgood] at hx
        exact absurd hx (by simp)
      · unfold formatAll
        rw [herr]
    · have hys := ih ⟨x, htail, hx⟩
      rcases pyFormatD_cases y with ⟨-, s, hok⟩ | ⟨-, herr⟩
      · unfold formatAll
        rw [hok, hys]
      · unfold formatAll
        rw [herr]

theorem formatAll_ok_of_good {l : List PyVal}
    (h : ∀ x ∈ l, x.formatsWithD = true) :
    ∃ ss, formatAll l = .ok ss := by
  induction l with
  | nil => exact ⟨[], rfl⟩
  | cons y ys ih =>
    obtain ⟨ss, hss⟩ := ih (fun x hx => h x (List.mem_cons_of_mem y hx))
    rcases pyFormatD_cases y with ⟨-, s, hok⟩ | ⟨hbad, -⟩
    · refine ⟨s :: ss, ?_⟩
      unfold formatAll
      rw [hok, hss]
    · have hy := h y (List.mem_cons_self y ys)
      rw [hbad] at hy
      exact absurd hy (by simp)

theorem as_sql_error_of_bad_entry {a : AggregateRegister}
    (qn : String → String)
    (h : ∃ x ∈ a.normalization, x.formatsWithD = false) :
    a.as_sql qn = .error .typeError := by
  have hne : a.normalization ≠ [] := by
    obtain ⟨x, hmem, -⟩ := h
    exact List.ne_nil_of_mem hmem
  have h1 : normalizationParams a.normalization = .error .typeError := by
    unfold normalizationParams
    rw [if_neg (by simpa using hne), formatAll_error_of_bad_entry h]
  unfold AggregateRegister.as_sql
  rw [h1]

theorem normalizationParams_ok_of_good {l : List PyVal}
    (h : ∀ x ∈ l, x.formatsWithD = true) :
    ∃ t, normalizationParams l = .ok t := by
  unfold normalizationParams
  by_cases he : l.isEmpty = true
  · rw [if_pos he]
    exact ⟨"", rfl⟩
  · rw [if_neg he]
    obtain ⟨ss, hss⟩ := formatAll_ok_of_good h
    rw [hss]
    exact ⟨_, rfl⟩

theorem as_sql_ok_of_good {a : AggregateRegister} (qn : String → String)
    (h : ∀ x ∈ a.normalization, x.formatsWithD = true) :
    ∃ r, a.as_sql qn = .ok r := by
  obtain ⟨t, ht⟩ := normalizationParams_ok_of_good h
  have hcall : a.as_sql qn = .ok
      (a.sql_function ++ "(" ++ String.intercalate "." (a.col.map qn) ++
         ", to_tsquery(\x27" ++ a.dictionary ++ "\x27, %s)" ++ t ++ ")",
       [a.params]) := by
    unfold AggregateRegister.as_sql
    rw [ht]
  exact ⟨_, hcall⟩

theorem findAssoc_updateAssoc (l : List (String × AggregateRegister))
    (k : String) (v : AggregateRegister) :
    findAssoc (updateAssoc l k v) k = some v := by
  induction l with
  | nil => simp [updateAssoc, findAssoc]
  | cons hd tl ih =>
    obtain ⟨k₀, v₀⟩ := hd
    by_cases hk : k₀ = k
    · simp [updateAssoc, findAssoc, hk]
    · simp [updateAssoc, findAssoc, hk, ih]

theorem resolveDict_empty {s : FTSRankSpec} (src : Source)
    (h : s.dictionary = "") : resolveDict s src = .ok src.dictionary := by
  unfold resolveDict
  rw [if_neg (by simp [h])]

theorem resolveDict_explicit {s : FTSRankSpec} {src : Source}
    (h1 : s.dictionary ≠ "") (h2 : s.dictionary ∈ src.transforms) :
    resolveDict s src = .ok s.dictionary := by
  unfold resolveDict Source.get_transform
  rw [if_pos h1, if_pos h2]

theorem resolveDict_ok_cases {s : FTSRankSpec} {src : Source} {d : String}
    (h : resolveDict s src = .ok d) :
    (s.dictionary = "" ∧ d = src.dictionary) ∨
    (s.dictionary ≠ "" ∧ d = s.dictionary ∧ s.dictionary ∈ src.transforms) := by
  unfold resolveDict Source.get_transform at h
  by_cases hd : s.dictionary ≠ ""
  · rw [if_pos hd] at h
    by_cases ht : s.dictionary ∈ src.transforms → False
    · rw [if_neg ht] at h
      exact absurd h (by simp)
    · rw [if_pos (not_not.mp ht)] at h
      simp only [Except.ok.injEq] at h
      exact Or.inr ⟨hd, h.symm, not_not.mp ht⟩
  · rw [if_neg hd] at h
    simp only [Except.ok.injEq] at h
    exact Or.inl ⟨not_not.mp (by simpa using hd), h.symm⟩

theorem add_to_query_ok_elim {self : FTSRankSpec} {q : Query} {als : String}
    {col : List String} {src : Source} {self' : FTSRankSpec} {q' : Query}
    (h : add_to_query self q als col src = .ok (self', q')) :
    ∃ dict, resolveDict self src = .ok dict ∧
      self' = { self with
                dictionary := dict
                extra := .rank (src.db_prep self.srt_lookup self.rhs)
                           dict self.normalization } ∧
      q' = { whereList := q.whereList ++
               [(src.get_lookup_fn self.srt_lookup).lookup_sql (quoteCol col)
                  dict "%s"]
             whereParams := q.whereParams ++
               [src.db_prep self.srt_lookup self.rhs]
             aggregates := updateAssoc q.aggregates als
               ⟨col, self.sql_function, src.db_prep self.srt_lookup self.rhs,
                dict, self.normalization⟩
             group_by := if col ∈ q.group_by then q.group_by
                         else q.group_by ++ [col] } := by
  unfold add_to_query at h
  cases hr : resolveDict self src with
  | error e => rw [hr] at h; exact absurd h (by simp)
  | ok dict =>
    rw [hr] at h
    simp only [Except.ok.injEq, Prod.mk.injEq] at h
    obtain ⟨hs, hq⟩ := h
    exact ⟨dict, rfl, hs.symm, hq.symm⟩

theorem add_twice_group_by {s1 s2 s1' s2' : FTSRankSpec} {q q1 q2 : Query}
    {a1 a2 : String} {col : List String} {src1 src2 : Source}
    (h0 : col ∉ q.group_by)
    (h1 : add_to_query s1 q a1 col src1 = .ok (s1', q1))
    (h2 : add_to_query s2 q1 a2 col src2 = .ok (s2', q2)) :
    q2.group_by = q.group_by ++ [col] := by
  obtain ⟨d1, -, -, hq1⟩ := add_to_query_ok_elim h1
  obtain ⟨d2, -, -, hq2⟩ := add_to_query_ok_elim h2
  subst hq1
  subst hq2
  simp only [if_neg h0]
  rw [if_pos (by simp)]

theorem count_append_singleton_of_not_mem {col : List String}
    {l : List (List String)} (h : col ∉ l) :
    ((l ++ [col]).count col) = 1 := by
  rw [List.count_append, List.count_eq_zero.mpr h]
  simp

/-! Claim theorems. -/

/-- C1: for every `AggregateRegister` with function name `f`, target column
parts `col`, predicate parameter tuple `p`, and normalization flag list
`flags`, `as_sql` returns the pair whose SQL text is exactly the single
function-call expression
`f(<quoted c1>.<...>.<quoted cn>, to_tsquery('<dictionary>', %s)<suffix>)`
and whose bound parameter list is the one-element list holding the entire
tuple `p`, not its individual scalars. -/
theorem as_sql_single_call_whole_tuple (f dict : String) (col : List String)
    (p : List PyVal) (flags : List Nat) (qn : String → String) :
    AggregateRegister.as_sql
        ⟨col, f, .tup p, dict, flags.map (fun n => .int n)⟩ qn =
      .ok (f ++ "(" ++ String.intercalate "." (col.map qn) ++
             ", to_tsquery(\x27" ++ dict ++ "\x27, %s)" ++
             specNormSuffix flags ++ ")",
           [PyVal.tup p]) := by
  unfold AggregateRegister.as_sql
  rw [normalizationParams_int]

/-- C2: for every ordered list of non-negative integers `[n1, ..., nk]`
supplied as normalization flags, the rendered normalization suffix inside
the ranking call is the empty string when `k = 0`, and otherwise is exactly
the string `", n1|n2|...|nk"` with the flags in their original order
(`specNormSuffix` is that suffix, word for word from the specification). -/
theorem normalization_suffix_rendering (flags : List Nat) :
    normalizationParams (flags.map (fun n => .int n)) =
      .ok (specNormSuffix flags) :=
  normalizationParams_int flags

/-- C3: when a spec carries an explicit dictionary (a dictionary-aware
variant) that is not a registered transform on the resolved column,
`add_to_query` fails with the configuration error before any mutation: no
updated query is produced, so no WHERE fragment, no aggregate registration
and no GROUP BY change occur. -/
theorem invalid_dictionary_aborts_attachment (self : FTSRankSpec) (q : Query)
    (als : String) (col : List String) (src : Source)
    (h1 : self.dictionary ≠ "") (h2 : self.dictionary ∉ src.transforms) :
    add_to_query self q als col src = .error .fieldError := by
  unfold add_to_query resolveDict Source.get_transform
  rw [if_pos h1, if_neg h2]

/-- Witness for C3: a spec whose explicit dictionary `portuguese` is not
registered on a resolver that only knows `english`: attachment fails with
the configuration error and yields no mutated query. -/
theorem invalid_dictionary_aborts_attachment_witness :
    add_to_query
        ⟨"FTSRank", "ts_rank", "body", .str "hi", "portuguese", "search", [],
         .kwargs [("body__portuguese__search", .str "hi")]⟩
        emptyQuery "rank" ["article", "body"] englishSource =
      .error .fieldError :=
  invalid_dictionary_aborts_attachment _ _ _ _ _ (by decide) (by decide)

/-- Counterexample to C4 as stated: constructing a dictionary-aware variant
with exactly one non-normalization keyword argument does not always
succeed — with the single-segment path `search` the constructor fails (with
the unpacking `ValueError`), so no spec object is produced. -/
theorem single_kwarg_construction_can_fail :
    FTSRankDictionay.init none [("search", .str "x")] = .error .valueError ∧
    ¬∃ s, FTSRankDictionay.init none [("search", .str "x")] = .ok s := by
  refine ⟨rfl, ?_⟩
  rintro ⟨s, hs⟩
  rw [show FTSRankDictionay.init none [("search", .str "x")] =
        .error .valueError from rfl] at hs
  exact absurd hs (by simp)

/-- C4 (amended): constructing any of the four variants with zero, or two
or more, keyword arguments besides normalization fails with the contract
(assertion) error; with exactly one such keyword argument the
dictionary-default constructors always succeed, and the dictionary-aware
constructors succeed exactly when the lookup path has at least two
segments, failing with the unpacking `ValueError` on a single-segment
path. -/
theorem single_argument_contract (nm fn : String)
    (norm? : Option (List PyVal)) (extra : List (String × PyVal)) :
    (extra.length ≠ 1 →
      FTSRank_init nm fn norm? extra = .error .assertionError ∧
      FTSRankDictionay_init nm fn norm? extra = .error .assertionError) ∧
    (∀ k v, extra = [(k, v)] →
      (∃ s, FTSRank_init nm fn norm? extra = .ok s) ∧
      (2 ≤ (splitLookupSep k).length →
        ∃ s, FTSRankDictionay_init nm fn norm? extra = .ok s) ∧
      ((splitLookupSep k).length < 2 →
        FTSRankDictionay_init nm fn norm? extra = .error .valueError)) := by
  constructor
  · intro hlen
    match extra with
    | [] => exact ⟨rfl, rfl⟩
    | [(k, v)] => exact absurd rfl hlen
    | (k₁, v₁) :: (k₂, v₂) :: t => exact ⟨rfl, rfl⟩
  · rintro k v rfl
    refine ⟨⟨_, rfl⟩, ?_, ?_⟩
    · intro hlen
      rcases hrev : (splitLookupSep k).reverse with _ | ⟨s₀, _ | ⟨d₀, t₀⟩⟩
      · rw [← List.length_reverse, hrev] at hlen
        exact absurd hlen (by simp)
      · rw [← List.length_reverse, hrev] at hlen
        exact absurd hlen (by simp)
      · simp only [FTSRankDictionay_init]
        rw [hrev]
        exact ⟨_, rfl⟩
    · intro hlen
      rcases hrev : (splitLookupSep k).reverse with _ | ⟨s₀, _ | ⟨d₀, t₀⟩⟩
      · simp only [FTSRankDictionay_init]
        rw [hrev]
      · simp only [FTSRankDictionay_init]
        rw [hrev]
      · rw [← List.length_reverse, hrev] at hlen
        exact absurd hlen (by simp)

/-- Witness for C4 (amended): zero keyword arguments fail with the
contract error; one keyword argument succeeds on both constructor shapes
when the path is long enough; the dictionary-aware constructor fails with
the unpacking error on the single-segment path `search`. -/
theorem single_argument_contract_witness :
    FTSRank_init "FTSRank" "ts_rank" none [] = .error .assertionError ∧
    (∃ s, FTSRank_init "FTSRank" "ts_rank" none
        [("body__search", .str "x")] = .ok s) ∧
    (∃ s, FTSRankDictionay_init "FTSRank" "ts_rank" none
        [("body__portuguese__search", .str "x")] = .ok s) ∧
    FTSRankDictionay_init "FTSRank" "ts_rank" none
        [("search", .str "x")] = .error .valueError := by
  refine ⟨((single_argument_contract "FTSRank" "ts_rank" none []).1
            (by decide)).1, ?_, ?_, ?_⟩
  · exact ((single_argument_contract "FTSRank" "ts_rank" none
      [("body__search", .str "x")]).2 _ _ rfl).1
  · exact ((single_argument_contract "FTSRank" "ts_rank" none
      [("body__portuguese__search", .str "x")]).2 _ _ rfl).2.1 (by decide)
  · exact ((single_argument_contract "FTSRank" "ts_rank" none
      [("search", .str "x")]).2 _ _ rfl).2.2 (by decide)

/-- Counterexample to C5 as stated: constructing `FTSRank` with a
normalization list holding a string (not representable as a small
non-negative integer) raises nothing at construction time — the
constructor returns the completed spec object with the bad list stored
verbatim. -/
theorem bad_normalization_accepted_at_construction :
    FTSRank.init (some [.str "z"]) [("body__search", .str "hi")] =
      .ok ⟨"FTSRank", "ts_rank", "body", .str "hi", "", "search",
           [.str "z"], .kwargs [("body__search", .str "hi")]⟩ ∧
    ∀ e, FTSRank.init (some [.str "z"]) [("body__search", .str "hi")] ≠
      .error e := by
  refine ⟨rfl, fun e he => ?_⟩
  rw [show FTSRank.init (some [.str "z"]) [("body__search", .str "hi")] =
        .ok ⟨"FTSRank", "ts_rank", "body", .str "hi", "", "search",
             [.str "z"], .kwargs [("body__search", .str "hi")]⟩ from rfl]
      at he
  exact absurd he (by simp)

/-- C5 (amended): construction does not validate normalization entries at
all — with exactly one non-normalization keyword argument it succeeds
whatever the normalization list contains, storing the list verbatim (for
dictionary-aware variants, provided the path has two segments).  The error
surfaces only at rendering, where `'%d'` is applied: an entry the format
rejects (neither an integer nor a one-element tuple holding an integer,
since Python treats a tuple operand of `%` as the argument tuple) makes
`as_sql` raise `TypeError`, while a list of accepted entries renders
successfully. -/
theorem normalization_unchecked_at_construction (nm fn : String)
    (norm : List PyVal) (k : String) (v : PyVal) :
    (∃ s, FTSRank_init nm fn (some norm) [(k, v)] = .ok s ∧
      s.normalization = norm) ∧
    (2 ≤ (splitLookupSep k).length →
      ∃ s, FTSRankDictionay_init nm fn (some norm) [(k, v)] = .ok s ∧
        s.normalization = norm) ∧
    (∀ (a : AggregateRegister) (qn : String → String),
      (∃ x ∈ a.normalization, x.formatsWithD = false) →
      a.as_sql qn = .error .typeError) ∧
    (∀ (a : AggregateRegister) (qn : String → String),
      (∀ x ∈ a.normalization, x.formatsWithD = true) →
      ∃ r, a.as_sql qn = .ok r) := by
  have h1 : FTSRank_init nm fn (some norm) [(k, v)] = .ok
      { name := nm, sql_function := fn,
        lookup := joinLookupSep (splitLookupSep k).dropLast, rhs := v,
        dictionary := "", srt_lookup := (splitLookupSep k).getLastD "",
        normalization := norm, extra := .kwargs [(k, v)] } := rfl
  refine ⟨⟨_, h1, rfl⟩, ?_, fun a qn h => as_sql_error_of_bad_entry qn h,
    fun a qn h => as_sql_ok_of_good qn h⟩
  intro hlen
  rcases hrev : (splitLookupSep k).reverse with _ | ⟨s₀, _ | ⟨d₀, t₀⟩⟩
  · rw [← List.length_reverse, hrev] at hlen
    exact absurd hlen (by simp)
  · rw [← List.length_reverse, hrev] at hlen
    exact absurd hlen (by simp)
  · have h2 : FTSRankDictionay_init nm fn (some norm) [(k, v)] = .ok
        { name := nm, sql_function := fn,
          lookup := joinLookupSep
            ((splitLookupSep k).take ((splitLookupSep k).length - 2)),
          rhs := v, dictionary := d₀, srt_lookup := s₀,
          normalization := norm, extra := .kwargs [(k, v)] } := by
      simp only [FTSRankDictionay_init]
      rw [hrev]
      rfl
    exact ⟨_, h2, rfl⟩

/-- Witness for C5 (amended): with the bad normalization list `["z"]` the
constructor succeeds and stores the list; rendering an
`AggregateRegister` holding that list fails with `TypeError`, while one
holding the one-element integer tuple `(1,)` — which Python's `'%d'`
accepts — renders successfully. -/
theorem normalization_unchecked_at_construction_witness :
    (∃ s, FTSRank_init "FTSRank" "ts_rank" (some [.str "z"])
        [("body__search", .str "hi")] = .ok s ∧
        s.normalization = [.str "z"]) ∧
    AggregateRegister.as_sql
        ⟨["article", "body"], "ts_rank", .tup [.str "hi"], "english",
         [.str "z"]⟩ id = .error .typeError ∧
    (∃ r, AggregateRegister.as_sql
        ⟨["article", "body"], "ts_rank", .tup [.str "hi"], "english",
         [.tup [.int 1]]⟩ id = .ok r) := by
  refine ⟨(normalization_unchecked_at_construction "FTSRank" "ts_rank"
    [.str "z"] "body__search" (.str "hi")).1, ?_, ?_⟩
  · exact (normalization_unchecked_at_construction "FTSRank" "ts_rank"
      [.str "z"] "body__search" (.str "hi")).2.2.1 _ id
      ⟨.str "z", by simp, rfl⟩
  · refine (normalization_unchecked_at_construction "FTSRank" "ts_rank"
      [.str "z"] "body__search" (.str "hi")).2.2.2 _ id ?_
    intro x hx
    rw [List.mem_singleton] at hx
    subst hx
    rfl

/-- C9: for the shared dictionary-aware constructor
(`FTSRankDictionay.__init__`, used by `FTSRankCdDictionary`), a lookup
path with exactly one segment makes construction fail with the raw
sequence-unpacking `ValueError`, which is a different error kind from the
`AssertionError` contract error raised for a wrong argument count. -/
theorem dictionary_variant_single_segment_value_error (nm fn : String)
    (norm? : Option (List PyVal)) (k : String) (v : PyVal)
    (h : (splitLookupSep k).length = 1) :
    FTSRankDictionay_init nm fn norm? [(k, v)] = .error .valueError ∧
    PyError.valueError ≠ PyError.assertionError := by
  refine ⟨?_, by decide⟩
  obtain ⟨x, hx⟩ := List.length_eq_one.mp h
  simp only [FTSRankDictionay_init]
  rw [hx]
  rfl

/-- Witness for C9: the single-segment path `search` (no dictionary
segment before the match-operator segment) fails with `ValueError`. -/
theorem dictionary_variant_single_segment_value_error_witness :
    FTSRankDictionay_init "FTSRankCdDictionary" "ts_rank_cd" none
        [("search", .str "x")] = .error .valueError ∧
    PyError.valueError ≠ PyError.assertionError :=
  dictionary_variant_single_segment_value_error _ _ none "search" (.str "x")
    (by decide)

/-- C6: attaching a dictionary-default spec (empty `dictionary` field) to a
column whose resolver declares default dictionary `src.dictionary` makes
both the registered WHERE predicate and the registered rank expression use
that default: the appended fragment is rendered with `src.dictionary`, and
the aggregate stored under the alias carries `src.dictionary`. -/
theorem dictionary_inference_uses_source_default (self : FTSRankSpec)
    (q : Query) (als : String) (col : List String) (src : Source)
    (h : self.dictionary = "") :
    add_to_query self q als col src =
      .ok ({ self with
             dictionary := src.dictionary
             extra := .rank (src.db_prep self.srt_lookup self.rhs)
                        src.dictionary self.normalization },
           { whereList := q.whereList ++
               [(src.get_lookup_fn self.srt_lookup).lookup_sql
                  (quoteCol col) src.dictionary "%s"]
             whereParams := q.whereParams ++
               [src.db_prep self.srt_lookup self.rhs]
             aggregates := updateAssoc q.aggregates als
               ⟨col, self.sql_function,
                src.db_prep self.srt_lookup self.rhs, src.dictionary,
                self.normalization⟩
             group_by := if col ∈ q.group_by then q.group_by
                         else q.group_by ++ [col] }) ∧
    findAssoc (updateAssoc q.aggregates als
        ⟨col, self.sql_function, src.db_prep self.srt_lookup self.rhs,
         src.dictionary, self.normalization⟩) als =
      some ⟨col, self.sql_function, src.db_prep self.srt_lookup self.rhs,
            src.dictionary, self.normalization⟩ := by
  refine ⟨?_, findAssoc_updateAssoc _ _ _⟩
  unfold add_to_query
  rw [resolveDict_empty src h]

/-- Witness for C6: attaching the dictionary-default `bodySpec` through the
`english`-defaulting resolver yields the fragment and aggregate of
`queryOnce`, both carrying `english`. -/
theorem dictionary_inference_uses_source_default_witness :
    add_to_query bodySpec emptyQuery "rank" ["article", "body"]
        englishSource = .ok (bodySpecAttached, queryOnce) ∧
    findAssoc queryOnce.aggregates "rank" = some bodyAggregate :=
  dictionary_inference_uses_source_default bodySpec emptyQuery "rank"
    ["article", "body"] englishSource rfl

/-- C7: for every query whose GROUP BY does not yet contain the resolved
column, attaching two specs over that column (any variants, any resolvers,
in either order) leaves exactly one occurrence of the column in the GROUP
BY list — the second attachment does not append it again. -/
theorem group_by_contains_column_once {s1 s2 s1' s2' : FTSRankSpec}
    {q q1 q2 : Query} {a1 a2 : String} {col : List String}
    {src1 src2 : Source}
    (h0 : col ∉ q.group_by)
    (h1 : add_to_query s1 q a1 col src1 = .ok (s1', q1))
    (h2 : add_to_query s2 q1 a2 col src2 = .ok (s2', q2)) :
    q2.group_by.count col = 1 := by
  rw [add_twice_group_by h0 h1 h2]
  exact count_append_singleton_of_not_mem h0

/-- Witness for C7: attaching `bodySpec` and then `cdSpec` (both resolving
to `("article", "body")`) to the empty query leaves exactly one GROUP BY
occurrence of the column. -/
theorem group_by_contains_column_once_witness :
    queryTwice.group_by.count ["article", "body"] = 1 :=
  @group_by_contains_column_once bodySpec cdSpec bodySpecAttached
    cdSpecAttached emptyQuery queryOnce queryTwice "rank" "rank_cd"
    ["article", "body"] englishSource englishSource (by decide) rfl rfl

/-- Counterexample to C8 as stated: attaching the same spec object to the
same query twice does duplicate the WHERE fragment, but does not duplicate
the GROUP BY entry — after the second attachment the query still contains
exactly one copy of the resolved column in GROUP BY, not two. -/
theorem reattach_group_by_not_duplicated :
    add_to_query bodySpec emptyQuery "rank" ["article", "body"]
        englishSource = .ok (bodySpecAttached, queryOnce) ∧
    add_to_query bodySpecAttached queryOnce "rank" ["article", "body"]
        englishSource = .ok (bodySpecAttached, queryReattached) ∧
    queryReattached.whereList.length = 2 ∧
    queryReattached.group_by.count ["article", "body"] = 1 ∧
    queryReattached.group_by.count ["article", "body"] ≠ 2 :=
  ⟨rfl, rfl, rfl, by decide, by decide⟩

/-- C8 (amended): attachment is still not idempotent, but only the WHERE
side duplicates: reattaching a spec to the query it was already attached to
(starting from a query without the column in GROUP BY) appends the same
predicate fragment a second time, while the membership check keeps the
GROUP BY list at exactly one copy of the resolved column. -/
theorem reattach_duplicates_where_only {s s1 s2 : FTSRankSpec}
    {q q1 q2 : Query} {als : String} {col : List String} {src : Source}
    (h0 : col ∉ q.group_by)
    (h1 : add_to_query s q als col src = .ok (s1, q1))
    (h2 : add_to_query s1 q1 als col src = .ok (s2, q2)) :
    (∃ w, q2.whereList = q.whereList ++ [w, w]) ∧
    q2.group_by.count col = 1 := by
  refine ⟨?_, by
    rw [add_twice_group_by h0 h1 h2]
    exact count_append_singleton_of_not_mem h0⟩
  obtain ⟨d1, hr1, hs1, hq1⟩ := add_to_query_ok_elim h1
  obtain ⟨d2, hr2, hs2, hq2⟩ := add_to_query_ok_elim h2
  subst hs1 hq1 hq2
  have hd : d2 = d1 := by
    rcases resolveDict_ok_cases hr2 with ⟨he, hd2⟩ | ⟨hne, hd2, -⟩
    · have he1 : d1 = "" := he
      rcases resolveDict_ok_cases hr1 with ⟨he0, hd1⟩ | ⟨hne0, hd1, -⟩
      · rw [hd2, ← hd1]
      · exact absurd (hd1 ▸ he1) hne0
    · exact hd2
  subst hd
  exact ⟨(src.get_lookup_fn s.srt_lookup).lookup_sql (quoteCol col) d2 "%s",
    List.append_assoc q.whereList
      [(src.get_lookup_fn s.srt_lookup).lookup_sql (quoteCol col) d2 "%s"]
      [(src.get_lookup_fn s.srt_lookup).lookup_sql (quoteCol col) d2 "%s"]⟩

/-- Witness for C8 (amended): reattaching `bodySpec`'s attached state to
`queryOnce` duplicates the fragment and leaves one GROUP BY copy. -/
theorem reattach_duplicates_where_only_witness :
    (∃ w, queryReattached.whereList = emptyQuery.whereList ++ [w, w]) ∧
    queryReattached.group_by.count ["article", "body"] = 1 :=
  @reattach_duplicates_where_only bodySpec bodySpecAttached bodySpecAttached
    emptyQuery queryOnce queryReattached "rank" ["article", "body"]
    englishSource (by decide) rfl rfl

/-- C10: attachment mutates the spec object itself.  Attaching a
dictionary-default spec via a first resolver permanently assigns that
resolver's default dictionary into the spec's `dictionary` field while
leaving `lookup`, `rhs`, `srt_lookup` and `normalization` unchanged; a
second attachment of the returned spec object against any resolver that
registers the first dictionary as a transform takes the
explicit-dictionary validation branch and renders both the predicate and
the registered aggregate with the first resolver's dictionary — never
re-inferring from the second resolver's default. -/
theorem attach_assigns_spec_dictionary (s : FTSRankSpec) (qA qB : Query)
    (aA aB : String) (colA colB : List String) (src1 src2 : Source)
    (h0 : s.dictionary = "") (h1 : src1.dictionary ≠ "")
    (h2 : src1.dictionary ∈ src2.transforms) :
    ∃ s1 q1, add_to_query s qA aA colA src1 = .ok (s1, q1) ∧
      s1.dictionary = src1.dictionary ∧
      s1.lookup = s.lookup ∧ s1.rhs = s.rhs ∧
      s1.srt_lookup = s.srt_lookup ∧ s1.normalization = s.normalization ∧
      ∃ s2 q2, add_to_query s1 qB aB colB src2 = .ok (s2, q2) ∧
        s2.dictionary = src1.dictionary ∧
        q2.whereList = qB.whereList ++
          [(src2.get_lookup_fn s.srt_lookup).lookup_sql (quoteCol colB)
             src1.dictionary "%s"] ∧
        findAssoc q2.aggregates aB =
          some ⟨colB, s.sql_function, src2.db_prep s.srt_lookup s.rhs,
                src1.dictionary, s.normalization⟩ := by
  have hstep1 : add_to_query s qA aA colA src1 =
      .ok ({ s with
             dictionary := src1.dictionary
             extra := .rank (src1.db_prep s.srt_lookup s.rhs)
                        src1.dictionary s.normalization },
           { whereList := qA.whereList ++
               [(src1.get_lookup_fn s.srt_lookup).lookup_sql
                  (quoteCol colA) src1.dictionary "%s"]
             whereParams := qA.whereParams ++
               [src1.db_prep s.srt_lookup s.rhs]
             aggregates := updateAssoc qA.aggregates aA
               ⟨colA, s.sql_function, src1.db_prep s.srt_lookup s.rhs,
                src1.dictionary, s.normalization⟩
             group_by := if colA ∈ qA.group_by then qA.group_by
                         else qA.group_by ++ [colA] }) := by
    unfold add_to_query
    rw [resolveDict_empty src1 h0]
  have hstep2 : add_to_query
      { s with
        dictionary := src1.dictionary
        extra := .rank (src1.db_prep s.srt_lookup s.rhs)
                   src1.dictionary s.normalization } qB aB colB src2 =
      .ok ({ s with
             dictionary := src1.dictionary
             extra := .rank (src2.db_prep s.srt_lookup s.rhs)
                        src1.dictionary s.normalization },
           { whereList := qB.whereList ++
               [(src2.get_lookup_fn s.srt_lookup).lookup_sql
                  (quoteCol colB) src1.dictionary "%s"]
             whereParams := qB.whereParams ++
               [src2.db_prep s.srt_lookup s.rhs]
             aggregates := updateAssoc qB.aggregates aB
               ⟨colB, s.sql_function, src2.db_prep s.srt_lookup s.rhs,
                src1.dictionary, s.normalization⟩
             group_by := if colB ∈ qB.group_by then qB.group_by
                         else qB.group_by ++ [colB] }) := by
    unfold add_to_query
    rw [@resolveDict_explicit
      { s with
        dictionary := src1.dictionary
        extra := .rank (src1.db_prep s.srt_lookup s.rhs)
                   src1.dictionary s.normalization } src2 h1 h2]
  exact ⟨_, _, hstep1, rfl, rfl, rfl, rfl, rfl, _, _, hstep2, rfl, rfl,
    findAssoc_updateAssoc _ _ _⟩

/-- Witness for C10: `bodySpec` attached through the `english` resolver
carries `english` with it; reattaching the mutated spec through a resolver
whose default is `german` (but which registers `english`) still renders
predicate and aggregate with `english`. -/
theorem attach_assigns_spec_dictionary_witness :
    ∃ s1 q1, add_to_query bodySpec emptyQuery "rank" ["article", "body"]
        englishSource = .ok (s1, q1) ∧
      s1.dictionary = "english" ∧
      s1.lookup = "body" ∧ s1.rhs = .str "hi" ∧
      s1.srt_lookup = "search" ∧ s1.normalization = [] ∧
      ∃ s2 q2, add_to_query s1 emptyQuery "rank" ["article", "body"]
          germanSource = .ok (s2, q2) ∧
        s2.dictionary = "english" ∧
        q2.whereList = [testLookup.lookup_sql (quoteCol ["article", "body"])
          "english" "%s"] ∧
        findAssoc q2.aggregates "rank" =
          some ⟨["article", "body"], "ts_rank", .tup [.str "hi"],
                "english", []⟩ :=
  attach_assigns_spec_dictionary bodySpec emptyQuery emptyQuery "rank"
    "rank" ["article", "body"] ["article", "body"] englishSource
    germanSource rfl (by decide) (by decide)

end PgFts
